import Mathlib

/-!
Shallow embedding of `src/App.tsx` (vc-frontend): a single React component
holding form inputs, an in-flight flag, a list of scraped profiles and a
carousel index, together with its event handlers (`handleSubmit`,
`goToPrevious`, `goToNext`, `exportToExcel`) and the rendering branch for
experience records.  JS strings are `String`, JS numbers carried by the UI
are `Rat` (every value typed into the number input is a decimal fraction),
optional JSON fields are `Option`.
-/

namespace VcFrontend

/-- `interface Role` from App.tsx: all fields optional. -/
structure Role where
  title : Option String
  dateRange : Option String
  location : Option String
  description : Option (List String)
deriving DecidableEq

/-- `interface Experience` from App.tsx: `company` required, the rest optional;
`roles`, when present, holds the multi-role shape. -/
structure Experience where
  company : String
  roles : Option (List Role)
  dateRange : Option String
  description : Option (List String)
  location : Option String
  title : Option String
  skills : Option String
deriving DecidableEq

/-- `interface Education` from App.tsx. -/
structure Education where
  institution : String
  degree : String
  date : String
  details : List String
deriving DecidableEq

/-- One scored category of `interface Evaluation`. -/
structure ScoredCategory where
  score : Rat
  explanation : String
deriving DecidableEq

/-- `interface Evaluation` from App.tsx. -/
structure Evaluation where
  personal_information : ScoredCategory
  education : ScoredCategory
  work_experience : ScoredCategory
  overall_score : Rat
  actionable_insights : List String
deriving DecidableEq

/-- `interface Profile` from App.tsx: every field optional. -/
structure Profile where
  name : Option String
  location : Option String
  profile_url : Option String
  title : Option String
  experiences : Option (List Experience)
  education : Option (List Education)
  evaluation : Option Evaluation
deriving DecidableEq

/-- The component state: the six `useState` hooks of `App`, with their
initial values captured by `initApp` below.  The carousel index is an `Int`
because it is a JS number compared against `profiles.length - 1`. -/
structure AppState where
  linkedinUrl : String
  sessionCookie : String
  maxProfiles : Rat
  isRunning : Bool
  profiles : List Profile
  currentProfileIndex : Int
deriving DecidableEq

/-- Initial component state: `useState("")`, `useState("")`, `useState(1)`,
`useState(false)`, `useState([])`, `useState(0)`. -/
def initApp : AppState :=
  { linkedinUrl := ""
    sessionCookie := ""
    maxProfiles := 1
    isRunning := false
    profiles := []
    currentProfileIndex := 0 }

/-- Truthiness of an optional JS string: `undefined` and `""` are falsy. -/
def truthyStr (o : Option String) : Bool :=
  match o with
  | some s => s ≠ ""
  | none => false

/-- JS `x || d` on an optional string field: yields `d` when `x` is falsy. -/
def jsOr (o : Option String) (d : String) : String :=
  match o with
  | some s => if s = "" then d else s
  | none => d

/-- `goToPrevious` from App.tsx:
`setCurrentProfileIndex(prev => prev > 0 ? prev - 1 : prev)`. -/
def goToPrevious (s : AppState) : AppState :=
  { s with currentProfileIndex :=
      if s.currentProfileIndex > 0 then s.currentProfileIndex - 1
      else s.currentProfileIndex }

/-- `goToNext` from App.tsx:
`setCurrentProfileIndex(prev => prev < profiles.length - 1 ? prev + 1 : prev)`. -/
def goToNext (s : AppState) : AppState :=
  { s with currentProfileIndex :=
      if s.currentProfileIndex < (s.profiles.length : Int) - 1 then
        s.currentProfileIndex + 1
      else s.currentProfileIndex }

/-- One spreadsheet row built by `exportToExcel`: the object literal
`{name: ..., profile_url: ..., title: ..., location: ...}` with exactly
these four keys. -/
structure ExportRow where
  name : String
  profile_url : String
  title : String
  location : String
deriving DecidableEq

/-- The row `exportToExcel` builds for one profile, each field via JS `|| ""`. -/
def exportRow (p : Profile) : ExportRow :=
  { name := jsOr p.name ""
    profile_url := jsOr p.profile_url ""
    title := jsOr p.title ""
    location := jsOr p.location "" }

/-- Observable outcome of `exportToExcel`: either the `toast.error` notice, or
the client-side download produced by the SheetJS calls (`json_to_sheet`,
`book_new`, `book_append_sheet "Profiles"`, `writeFile "profiles.xlsx"`):
one file, one sheet with the given name, the given rows in order. -/
inductive ExportResult where
  | notice (msg : String)
  | file (filename : String) (sheetName : String) (rows : List ExportRow)
deriving DecidableEq

/-- `exportToExcel` from App.tsx. -/
def exportToExcel (profiles : List Profile) : ExportResult :=
  if profiles.length = 0 then .notice "No profiles to export"
  else .file "profiles.xlsx" "Profiles" (profiles.map exportRow)

/-- The export button click: `onClick={exportToExcel}`.  `exportToExcel`
invokes no state setter, so the component state is returned unchanged
alongside the produced output. -/
def exportClick (s : AppState) : AppState × ExportResult :=
  (s, exportToExcel s.profiles)

/-- The `data.profile` JS value of a response, when the field is present:
either a single (non-array) profile object or an array of profiles. -/
inductive ProfilePayload where
  | single (p : Profile)
  | array (ps : List Profile)
deriving DecidableEq

/-- A parsed JSON response body as `handleSubmit` inspects it: an optional
`error` field and an optional `profile` field (spec section 6 declares the
response shaped `\x7berror: string\x7d` or `\x7bprofile: Profile | Profile[]\x7d`;
both-present and error-empty payloads are still representable, since the code
only tests `data.error` for truthiness). -/
structure ResponseData where
  error : Option String
  profile : Option ProfilePayload
deriving DecidableEq

/-- Normalization done by the success branch:
`Array.isArray(data.profile) ? data.profile : [data.profile]`.
When the `profile` field is absent, the JS value `undefined` is wrapped into a
one-element array; we model that element as the record with every optional
field absent. -/
def normalizeProfilePayload (o : Option ProfilePayload) : List Profile :=
  match o with
  | some (.array ps) => ps
  | some (.single p) => [p]
  | none => [⟨none, none, none, none, none, none, none⟩]

/-- The response-handling block of `handleSubmit` (after `await response.json()`):
`if (data.error)` tests truthiness, the else branch replaces the profile list
wholesale and resets the carousel index; `finally` clears the in-flight flag.
Returns the new state and the toast messages shown. -/
def handleResponse (s : AppState) (d : ResponseData) : AppState × List String :=
  if truthyStr d.error then
    ({ s with isRunning := false }, [d.error.getD ""])
  else
    ({ s with
        profiles := normalizeProfilePayload d.profile
        currentProfileIndex := 0
        isRunning := false },
      ["Profiles scraped successfully!"])

/-- Outcome of the `fetch` + `response.json()` pair: a parsed body, or a
rejection (network or parse failure) landing in the `catch` block. -/
inductive FetchResult where
  | ok (d : ResponseData)
  | failed
deriving DecidableEq

/-- The JSON body `handleSubmit` posts to the scraping endpoint:
`\x7burl, session_cookie, limit\x7d`. -/
structure RequestBody where
  url : String
  session_cookie : String
  limit : Rat
deriving DecidableEq

/-- A user-facing notice: a `toast` from the handler, or the browser-native
form-validation bubble. -/
inductive Notice where
  | toast (msg : String)
  | nativeValidation
deriving DecidableEq

/-- Everything observable about one submission: the resulting component
state, the notices shown, and the request issued (`none` when no network
call was made). -/
structure SubmitResult where
  state : AppState
  notices : List Notice
  request : Option RequestBody
deriving DecidableEq

/-- `handleSubmit` from App.tsx, big-step over one whole submission: the
early-return validation guard `if (!linkedinUrl || !sessionCookie)`, then
`setIsRunning(true)`, the POST of `\x7burl, session_cookie, limit\x7d`, and
either the response handling or the `catch` toast, with `finally`
clearing the in-flight flag. -/
def handleSubmit (s : AppState) (r : FetchResult) : SubmitResult :=
  if s.linkedinUrl = "" ∨ s.sessionCookie = "" then
    { state := s
      notices := [.toast "Please fill in all required fields"]
      request := none }
  else
    let req : RequestBody :=
      { url := s.linkedinUrl
        session_cookie := s.sessionCookie
        limit := s.maxProfiles }
    match r with
    | .ok d =>
      let res := handleResponse { s with isRunning := true } d
      { state := res.1, notices := res.2.map .toast, request := some req }
    | .failed =>
      { state := { s with isRunning := false }
        notices := [.toast "Failed to scrape profiles"]
        request := some req }

/-- Modelled from the spec: validity of the max-profile number input under
browser-native HTML constraint validation.  The input declares
`type="number" min="1" max="5"` in App.tsx (default `step` is 1 with step
base `min`), so the field is valid exactly when its value is an integer in
[1, 5]; the enforcement itself is browser behaviour, not code under src/. -/
def maxProfilesFieldValid (m : Rat) : Bool :=
  m.den = 1 && 1 ≤ m && m ≤ 5

/-- Modelled from the spec: browser-native constraint validation of the whole
form on submission.  The URL input and the cookie textarea are `required`
(empty values fail), and the number input must satisfy
`maxProfilesFieldValid`; the `type="url"` well-formedness check on non-empty
URLs is not modelled. -/
def formConstraintsOk (s : AppState) : Bool :=
  s.linkedinUrl ≠ "" && s.sessionCookie ≠ "" && maxProfilesFieldValid s.maxProfiles

/-- Modelled from the spec: the form submission pipeline.  The browser runs
constraint validation first; on failure it shows a native validation notice
and never invokes `handleSubmit`, so no request is sent and the state is
untouched. -/
def formSubmit (s : AppState) (r : FetchResult) : SubmitResult :=
  if formConstraintsOk s then handleSubmit s r
  else { state := s, notices := [.nativeValidation], request := none }

/-- Whole-system state for the event-interleaving model: the component state
plus the number of outbound requests currently in flight. -/
structure SysState where
  app : AppState
  pending : Nat
deriving DecidableEq

/-- Initial system state: fresh component, nothing in flight. -/
def initSys : SysState := { app := initApp, pending := 0 }

/-- Small-step relation over UI events.  A submit click fires only while the
submit button is enabled (`disabled=\x7bisRunning\x7d`; implicit Enter-key
submission is likewise blocked by a disabled default button) and past form
validation; the synchronous prefix of `handleSubmit` sets the in-flight
flag and issues the request, and the response (or rejection) is consumed
later by a resolve step running the rest of the handler.  Navigation,
export and input edits are synchronous events. -/
inductive Step : SysState → SysState → Prop where
  | submit (σ : SysState) (h : σ.app.isRunning = false)
      (hv : formConstraintsOk σ.app = true) :
      Step σ ⟨{ σ.app with isRunning := true }, σ.pending + 1⟩
  | resolveOk (σ : SysState) (d : ResponseData) (n : Nat) (h : σ.pending = n + 1) :
      Step σ ⟨(handleResponse σ.app d).1, n⟩
  | resolveFail (σ : SysState) (n : Nat) (h : σ.pending = n + 1) :
      Step σ ⟨{ σ.app with isRunning := false }, n⟩
  | prev (σ : SysState) : Step σ ⟨goToPrevious σ.app, σ.pending⟩
  | next (σ : SysState) : Step σ ⟨goToNext σ.app, σ.pending⟩
  | exportClicked (σ : SysState) : Step σ ⟨(exportClick σ.app).1, σ.pending⟩
  | setUrl (σ : SysState) (v : String) :
      Step σ ⟨{ σ.app with linkedinUrl := v }, σ.pending⟩
  | setCookie (σ : SysState) (v : String) :
      Step σ ⟨{ σ.app with sessionCookie := v }, σ.pending⟩
  | setMax (σ : SysState) (v : Rat) :
      Step σ ⟨{ σ.app with maxProfiles := v }, σ.pending⟩

/-- States reachable from the initial state by UI events. -/
def Reachable (σ : SysState) : Prop :=
  Relation.ReflTransGen Step initSys σ

/-- Rendering of one role in the multi-role branch: the title paragraph is
emitted unconditionally (`\x7brole.title\x7d`), date range and location only
when truthy, description items only when present and non-empty. -/
def renderRole (r : Role) : List String :=
  [jsOr r.title ""]
    ++ (if truthyStr r.dateRange then [r.dateRange.getD ""] else [])
    ++ (if truthyStr r.location then [r.location.getD ""] else [])
    ++ (match r.description with
        | some ds => if ds.length > 0 then ds else []
        | none => [])

/-- Rendering of the single-role (flat) branch: each of title, date range and
location only when truthy, description items only when present and
non-empty.  Only the flat fields of the experience record itself appear. -/
def renderFlat (e : Experience) : List String :=
  (if truthyStr e.title then [e.title.getD ""] else [])
    ++ (if truthyStr e.dateRange then [e.dateRange.getD ""] else [])
    ++ (if truthyStr e.location then [e.location.getD ""] else [])
    ++ (match e.description with
        | some ds => if ds.length > 0 then ds else []
        | none => [])

/-- The two mutually exclusive renderings of one experience record. -/
inductive ExpView where
  | rolesView (items : List (List String))
  | flatView (items : List String)
deriving DecidableEq

/-- The `exp.roles ? ... : ...` branch of the experience rendering in
App.tsx: an array value (even an empty one) is truthy, `undefined` is
falsy, so the branch is decided by presence of the `roles` field alone. -/
def renderExperience (e : Experience) : ExpView :=
  match e.roles with
  | some rs => .rolesView (rs.map renderRole)
  | none => .flatView (renderFlat e)

/-! Concrete fixtures used by witnesses. -/

/-- A sample profile with some fields present. -/
def profileA : Profile :=
  { name := some "Ada"
    location := some "London"
    profile_url := some "https://example.com/ada"
    title := some "Engineer"
    experiences := none
    education := none
    evaluation := none }

/-- A sample profile with most fields absent. -/
def profileB : Profile :=
  { name := some "Bob"
    location := none
    profile_url := none
    title := none
    experiences := none
    education := none
    evaluation := none }

/-- A sample component state with two loaded profiles and valid inputs. -/
def stateW : AppState :=
  { linkedinUrl := "https://www.linkedin.com/search/results/people/x"
    sessionCookie := "li_at=abc"
    maxProfiles := 1
    isRunning := false
    profiles := [profileA, profileB]
    currentProfileIndex := 0 }

/-- C1: for a non-empty profile list and an in-range carousel index, previous
at index 0 is a no-op and otherwise decrements by one, next at the last
index is a no-op and otherwise increments by one, and both results stay in
[0, length - 1]. -/
theorem c1_carousel_navigation (s : AppState)
    (hN : 1 ≤ s.profiles.length)
    (h0 : 0 ≤ s.currentProfileIndex)
    (h1 : s.currentProfileIndex ≤ (s.profiles.length : Int) - 1) :
    (s.currentProfileIndex = 0 → goToPrevious s = s) ∧
    (0 < s.currentProfileIndex →
      (goToPrevious s).currentProfileIndex = s.currentProfileIndex - 1) ∧
    (s.currentProfileIndex = (s.profiles.length : Int) - 1 → goToNext s = s) ∧
    (s.currentProfileIndex < (s.profiles.length : Int) - 1 →
      (goToNext s).currentProfileIndex = s.currentProfileIndex + 1) ∧
    0 ≤ (goToPrevious s).currentProfileIndex ∧
    (goToPrevious s).currentProfileIndex ≤ (s.profiles.length : Int) - 1 ∧
    0 ≤ (goToNext s).currentProfileIndex ∧
    (goToNext s).currentProfileIndex ≤ (s.profiles.length : Int) - 1 := by
  have hp : (goToPrevious s).currentProfileIndex =
      (if s.currentProfileIndex > 0 then s.currentProfileIndex - 1
       else s.currentProfileIndex) := rfl
  have hn : (goToNext s).currentProfileIndex =
      (if s.currentProfileIndex < (s.profiles.length : Int) - 1 then
        s.currentProfileIndex + 1
       else s.currentProfileIndex) := rfl
  refine ⟨?_, ?_, ?_, ?_, ?_, ?_, ?_, ?_⟩
  · intro h
    unfold goToPrevious
    rw [if_neg (by omega)]
  · intro h
    rw [hp, if_pos (by omega)]
  · intro h
    unfold goToNext
    rw [if_neg (by omega)]
  · intro h
    rw [hn, if_pos (by omega)]
  · rw [hp]; split <;> omega
  · rw [hp]; split <;> omega
  · rw [hn]; split <;> omega
  · rw [hn]; split <;> omega

/-- Witness for C1 at a two-profile state with index 0. -/
theorem c1_carousel_navigation_witness :
    (stateW.currentProfileIndex = 0 → goToPrevious stateW = stateW) ∧
    (0 < stateW.currentProfileIndex →
      (goToPrevious stateW).currentProfileIndex = stateW.currentProfileIndex - 1) ∧
    (stateW.currentProfileIndex = (stateW.profiles.length : Int) - 1 →
      goToNext stateW = stateW) ∧
    (stateW.currentProfileIndex < (stateW.profiles.length : Int) - 1 →
      (goToNext stateW).currentProfileIndex = stateW.currentProfileIndex + 1) ∧
    0 ≤ (goToPrevious stateW).currentProfileIndex ∧
    (goToPrevious stateW).currentProfileIndex ≤ (stateW.profiles.length : Int) - 1 ∧
    0 ≤ (goToNext stateW).currentProfileIndex ∧
    (goToNext stateW).currentProfileIndex ≤ (stateW.profiles.length : Int) - 1 :=
  c1_carousel_navigation stateW (by decide) (by decide) (by decide)

/-- C10: previous and next change only the carousel index (profile list, the
three form inputs and the in-flight flag are untouched), and the export
click leaves the component state exactly as it was. -/
theorem c10_navigation_export_frame (s : AppState) :
    (goToPrevious s).profiles = s.profiles ∧
    (goToPrevious s).linkedinUrl = s.linkedinUrl ∧
    (goToPrevious s).sessionCookie = s.sessionCookie ∧
    (goToPrevious s).maxProfiles = s.maxProfiles ∧
    (goToPrevious s).isRunning = s.isRunning ∧
    (goToNext s).profiles = s.profiles ∧
    (goToNext s).linkedinUrl = s.linkedinUrl ∧
    (goToNext s).sessionCookie = s.sessionCookie ∧
    (goToNext s).maxProfiles = s.maxProfiles ∧
    (goToNext s).isRunning = s.isRunning ∧
    (exportClick s).1 = s :=
  ⟨rfl, rfl, rfl, rfl, rfl, rfl, rfl, rfl, rfl, rfl, rfl⟩

/-- C3: exporting an empty list yields only the notice; exporting a
non-empty list yields one file named profiles.xlsx with a single sheet
named Profiles, one row per profile in list order, missing fields rendered
as the empty string, and each row determined solely by the four top-level
fields (nested fields never appear). -/
theorem c3_export_to_excel (ps : List Profile) :
    (ps = [] → exportToExcel ps = .notice "No profiles to export") ∧
    (ps ≠ [] →
      exportToExcel ps = .file "profiles.xlsx" "Profiles" (ps.map exportRow)) ∧
    (ps.map exportRow).length = ps.length ∧
    (∀ p : Profile, p.name = none → (exportRow p).name = "") ∧
    (∀ p : Profile, p.profile_url = none → (exportRow p).profile_url = "") ∧
    (∀ p : Profile, p.title = none → (exportRow p).title = "") ∧
    (∀ p : Profile, p.location = none → (exportRow p).location = "") ∧
    (∀ p q : Profile, p.name = q.name → p.profile_url = q.profile_url →
      p.title = q.title → p.location = q.location → exportRow p = exportRow q) := by
  refine ⟨?_, ?_, ?_, ?_, ?_, ?_, ?_, ?_⟩
  · intro h
    subst h
    rfl
  · intro h
    unfold exportToExcel
    rw [if_neg (by simpa [List.length_eq_zero] using h)]
  · simp
  · intro p h
    simp [exportRow, jsOr, h]
  · intro p h
    simp [exportRow, jsOr, h]
  · intro p h
    simp [exportRow, jsOr, h]
  · intro p h
    simp [exportRow, jsOr, h]
  · intro p q h1 h2 h3 h4
    simp [exportRow, h1, h2, h3, h4]

/-- Witness for C3 at a two-profile list. -/
theorem c3_export_to_excel_witness :
    ([profileA, profileB] : List Profile) ≠ [] ∧
    exportToExcel [profileA, profileB] =
      .file "profiles.xlsx" "Profiles" [exportRow profileA, exportRow profileB] ∧
    (exportRow profileB).title = "" :=
  ⟨by decide,
    (c3_export_to_excel [profileA, profileB]).2.1 (by decide),
    (c3_export_to_excel [profileA, profileB]).2.2.2.2.2.1 profileB rfl⟩

/-- C7: an experience record whose roles list is present (in particular
non-empty) renders exactly the per-role views, so none of the flat fields
of the record itself appear; a record without a roles list renders exactly
the flat view; and the two views are distinct shapes. -/
theorem c7_experience_rendering (e : Experience) :
    (∀ rs : List Role, e.roles = some rs → rs ≠ [] →
      renderExperience e = .rolesView (rs.map renderRole)) ∧
    (e.roles = none → renderExperience e = .flatView (renderFlat e)) ∧
    (∀ (xs : List (List String)) (ys : List String),
      ExpView.rolesView xs ≠ ExpView.flatView ys) := by
  refine ⟨?_, ?_, ?_⟩
  · intro rs hpres hne
    unfold renderExperience
    rw [hpres]
  · intro habs
    unfold renderExperience
    rw [habs]
  · intro xs ys h
    exact ExpView.noConfusion h

/-- A sample role. -/
def roleA : Role :=
  { title := some "CTO"
    dateRange := some "2020 - 2022"
    location := none
    description := some ["Led the team"] }

/-- A multi-role experience record. -/
def expMulti : Experience :=
  { company := "Acme"
    roles := some [roleA]
    dateRange := some "flat date never shown"
    description := none
    location := some "flat location never shown"
    title := some "flat title never shown"
    skills := none }

/-- A flat (single-role) experience record. -/
def expFlat : Experience :=
  { company := "Biz"
    roles := none
    dateRange := some "2018 - 2019"
    description := some ["Built things"]
    location := none
    title := some "Engineer"
    skills := none }

/-- Witness for C7 at one multi-role and one flat experience record. -/
theorem c7_experience_rendering_witness :
    renderExperience expMulti = .rolesView [renderRole roleA] ∧
    renderExperience expFlat = .flatView (renderFlat expFlat) :=
  ⟨(c7_experience_rendering expMulti).1 [roleA] rfl (by decide),
    (c7_experience_rendering expFlat).2.1 rfl⟩

/-- C2: a successful response with no error field replaces the profile list
wholesale — a single object becomes the one-element list containing it, an
array becomes exactly that list — and the carousel index is reset to 0,
regardless of what was stored before. -/
theorem c2_success_replaces_wholesale (s : AppState) (p : Profile)
    (ps : List Profile)
    (hu : s.linkedinUrl ≠ "") (hc : s.sessionCookie ≠ "") :
    (handleSubmit s (.ok ⟨none, some (.single p)⟩)).state.profiles = [p] ∧
    (handleSubmit s (.ok ⟨none, some (.single p)⟩)).state.currentProfileIndex = 0 ∧
    (handleSubmit s (.ok ⟨none, some (.array ps)⟩)).state.profiles = ps ∧
    (handleSubmit s (.ok ⟨none, some (.array ps)⟩)).state.currentProfileIndex = 0 := by
  have hcond : ¬(s.linkedinUrl = "" ∨ s.sessionCookie = "") := by
    simp [hu, hc]
  refine ⟨?_, ?_, ?_, ?_⟩ <;>
    simp [handleSubmit, hcond, handleResponse, truthyStr, normalizeProfilePayload]

/-- Witness for C2 at a concrete state holding two old profiles. -/
theorem c2_success_replaces_wholesale_witness :
    (handleSubmit stateW (.ok ⟨none, some (.single profileB)⟩)).state.profiles
        = [profileB] ∧
    (handleSubmit stateW
        (.ok ⟨none, some (.single profileB)⟩)).state.currentProfileIndex = 0 ∧
    (handleSubmit stateW
        (.ok ⟨none, some (.array [profileB, profileA])⟩)).state.profiles
        = [profileB, profileA] ∧
    (handleSubmit stateW
        (.ok ⟨none, some (.array [profileB, profileA])⟩)).state.currentProfileIndex
        = 0 :=
  c2_success_replaces_wholesale stateW profileB [profileB, profileA]
    (by decide) (by decide)

/-- C4 counterexample: a response that carries an error field whose value is
the empty string together with a profile payload.  The code tests
`data.error` for truthiness, so the empty error string falls through to the
success branch and the stored profile list is replaced, not preserved. -/
theorem c4_error_field_counterexample :
    (handleSubmit stateW
        (.ok ⟨some "", some (.single profileB)⟩)).state.profiles
      ≠ stateW.profiles := by
  decide

/-- C4 (amended): for a submission whose outcome is a failure — a response
carrying a truthy (non-empty) error field, or a transport failure — a
notice is shown and the stored profile list and carousel index are exactly
what they were before. -/
theorem c4_failure_preserves_state (s : AppState) (r : FetchResult)
    (hu : s.linkedinUrl ≠ "") (hc : s.sessionCookie ≠ "")
    (hfail : (∃ d msg, r = .ok d ∧ d.error = some msg ∧ msg ≠ "") ∨ r = .failed) :
    (handleSubmit s r).state.profiles = s.profiles ∧
    (handleSubmit s r).state.currentProfileIndex = s.currentProfileIndex ∧
    (handleSubmit s r).notices ≠ [] := by
  have hcond : ¬(s.linkedinUrl = "" ∨ s.sessionCookie = "") := by
    simp [hu, hc]
  rcases hfail with ⟨d, msg, hr, he, hmsg⟩ | hr
  · subst hr
    refine ⟨?_, ?_, ?_⟩ <;>
      simp [handleSubmit, hcond, handleResponse, truthyStr, he, hmsg]
  · subst hr
    refine ⟨?_, ?_, ?_⟩ <;> simp [handleSubmit, hcond]

/-- Witness for C4 (amended): a truthy error response and a transport
failure against a state holding two profiles, both preserving them. -/
theorem c4_failure_preserves_state_witness :
    (handleSubmit stateW .failed).state.profiles = stateW.profiles ∧
    (handleSubmit stateW .failed).state.currentProfileIndex
        = stateW.currentProfileIndex ∧
    (handleSubmit stateW .failed).notices ≠ [] :=
  c4_failure_preserves_state stateW .failed (by decide) (by decide) (Or.inr rfl)

/-- C5: submitting with an empty URL or an empty cookie issues no request,
shows a validation notice and leaves the state untouched — both at the
browser validation layer and at the in-handler guard. -/
theorem c5_empty_required_field_blocks (s : AppState) (r : FetchResult)
    (h : s.linkedinUrl = "" ∨ s.sessionCookie = "") :
    formSubmit s r =
      { state := s, notices := [.nativeValidation], request := none } ∧
    handleSubmit s r =
      { state := s
        notices := [.toast "Please fill in all required fields"]
        request := none } := by
  constructor
  · have hok : formConstraintsOk s = false := by
      rcases h with h | h <;> simp [formConstraintsOk, h]
    simp [formSubmit, hok]
  · unfold handleSubmit
    rw [if_pos h]

/-- Witness for C5 at the initial state (both required fields empty). -/
theorem c5_empty_required_field_blocks_witness :
    formSubmit initApp .failed =
      { state := initApp, notices := [.nativeValidation], request := none } ∧
    handleSubmit initApp .failed =
      { state := initApp
        notices := [.toast "Please fill in all required fields"]
        request := none } :=
  c5_empty_required_field_blocks initApp .failed (Or.inl rfl)

/-- C6: when the max-profile count is not an integer in [1, 5], form
constraint validation fails, so submission is blocked with a notice, no
request is sent and the state is untouched. -/
theorem c6_max_profiles_out_of_range_blocks (s : AppState) (r : FetchResult)
    (h : maxProfilesFieldValid s.maxProfiles = false) :
    formSubmit s r =
      { state := s, notices := [.nativeValidation], request := none } := by
  have hok : formConstraintsOk s = false := by
    simp [formConstraintsOk, h]
  simp [formSubmit, hok]

/-- A state whose max-profile count 7 violates the 1..5 range. -/
def stateBadMax : AppState := { stateW with maxProfiles := 7 }

/-- Witness for C6 at a state with max-profile count 7. -/
theorem c6_max_profiles_out_of_range_blocks_witness :
    formSubmit stateBadMax .failed =
      { state := stateBadMax, notices := [.nativeValidation], request := none } :=
  c6_max_profiles_out_of_range_blocks stateBadMax .failed (by decide)

/-- C8: in every reachable system state at most one request is in flight
(and whenever one is, the in-flight flag is set, which is exactly what
disables the submit action), so no interleaving of UI events produces two
concurrent outbound requests. -/
theorem c8_single_flight (σ : SysState) (h : Reachable σ) :
    σ.pending ≤ 1 ∧ (σ.pending = 1 → σ.app.isRunning = true) := by
  induction h with
  | refl => exact ⟨by decide, by intro h; exact absurd h (by decide)⟩
  | @tail σb σc hsteps hstep ih =>
    obtain ⟨hle, himp⟩ := ih
    cases hstep with
    | submit hrun hv =>
      have hp0 : σb.pending = 0 := by
        rcases Nat.le_one_iff_eq_zero_or_eq_one.mp hle with h0 | h1
        · exact h0
        · exact absurd (himp h1) (by simp [hrun])
      exact ⟨by show σb.pending + 1 ≤ 1; omega, fun _ => rfl⟩
    | resolveOk d n hn =>
      refine ⟨?_, fun hh => ?_⟩
      · show n ≤ 1
        omega
      · exact absurd (show n = 1 from hh) (by omega)
    | resolveFail n hn =>
      refine ⟨?_, fun hh => ?_⟩
      · show n ≤ 1
        omega
      · exact absurd (show n = 1 from hh) (by omega)
    | prev => exact ⟨hle, himp⟩
    | next => exact ⟨hle, himp⟩
    | exportClicked => exact ⟨hle, himp⟩
    | setUrl v => exact ⟨hle, himp⟩
    | setCookie v => exact ⟨hle, himp⟩
    | setMax v => exact ⟨hle, himp⟩

/-- Witness for C8 at the initial state, reachable by the empty trace. -/
theorem c8_single_flight_witness :
    initSys.pending ≤ 1 ∧ (initSys.pending = 1 → initSys.app.isRunning = true) :=
  c8_single_flight initSys Relation.ReflTransGen.refl

/-- C9: in every reachable system state the carousel index is non-negative,
and whenever the profile list is non-empty the index is at most
length - 1. -/
theorem c9_index_in_range (σ : SysState) (h : Reachable σ) :
    0 ≤ σ.app.currentProfileIndex ∧
    (σ.app.profiles ≠ [] →
      σ.app.currentProfileIndex ≤ (σ.app.profiles.length : Int) - 1) := by
  induction h with
  | refl => exact ⟨le_refl 0, fun hne => absurd rfl hne⟩
  | @tail σb σc hsteps hstep ih =>
    obtain ⟨h0, h1⟩ := ih
    cases hstep with
    | submit hrun hv => exact ⟨h0, h1⟩
    | resolveOk d n hn =>
      show 0 ≤ (handleResponse σb.app d).1.currentProfileIndex ∧
        ((handleResponse σb.app d).1.profiles ≠ [] →
          (handleResponse σb.app d).1.currentProfileIndex ≤
            ((handleResponse σb.app d).1.profiles.length : Int) - 1)
      unfold handleResponse
      split
      · exact ⟨h0, h1⟩
      · refine ⟨le_refl 0, fun hne => ?_⟩
        have hne2 : normalizeProfilePayload d.profile ≠ [] := hne
        have hpos : 0 < (normalizeProfilePayload d.profile).length :=
          List.length_pos.mpr hne2
        show (0 : Int) ≤ ((normalizeProfilePayload d.profile).length : Int) - 1
        omega
    | resolveFail n hn => exact ⟨h0, h1⟩
    | prev =>
      refine ⟨?_, fun hne => ?_⟩
      · show 0 ≤ (if σb.app.currentProfileIndex > 0 then
            σb.app.currentProfileIndex - 1 else σb.app.currentProfileIndex)
        split <;> omega
      · have hl := h1 hne
        show (if σb.app.currentProfileIndex > 0 then
            σb.app.currentProfileIndex - 1 else σb.app.currentProfileIndex)
          ≤ (σb.app.profiles.length : Int) - 1
        split <;> omega
    | next =>
      refine ⟨?_, fun hne => ?_⟩
      · show 0 ≤ (if σb.app.currentProfileIndex <
            (σb.app.profiles.length : Int) - 1 then
            σb.app.currentProfileIndex + 1 else σb.app.currentProfileIndex)
        split <;> omega
      · have hl := h1 hne
        show (if σb.app.currentProfileIndex <
            (σb.app.profiles.length : Int) - 1 then
            σb.app.currentProfileIndex + 1 else σb.app.currentProfileIndex)
          ≤ (σb.app.profiles.length : Int) - 1
        split <;> omega
    | exportClicked => exact ⟨h0, h1⟩
    | setUrl v => exact ⟨h0, h1⟩
    | setCookie v => exact ⟨h0, h1⟩
    | setMax v => exact ⟨h0, h1⟩

/-- Witness for C9 at the initial state, reachable by the empty trace. -/
theorem c9_index_in_range_witness :
    0 ≤ initSys.app.currentProfileIndex ∧
    (initSys.app.profiles ≠ [] →
      initSys.app.currentProfileIndex ≤ (initSys.app.profiles.length : Int) - 1) :=
  c9_index_in_range initSys Relation.ReflTransGen.refl

end VcFrontend
